import Mathlib

/-!
Shallow embedding of the F1-Sentiment-Analysis browser front end
(src/unnamed/part_002, the latest prototype, and the variant in
src/front end/ts/app.ts where it differs), together with theorems checking
the natural-language specification against it.

Network interaction is modelled by passing each awaited fetch outcome as an
explicit argument; observable effects (DOM writes, requests issued, toasts,
timed delays) are recorded in a trace so that ordering and counting claims
can be stated.
-/

namespace F1Sentiment

/-- Image payload returned by the backend (interface Visualization in the
sources): a visualization type tag and base64 image data. -/
structure Visualization where
  type : String
  data : String
deriving DecidableEq, Repr

/-- Stats block of the realtime endpoint response (part_002 lines 26-30). -/
structure Stats where
  post_limit : Nat
  comment_limit : Nat
  visualizations_generated : Nat
deriving DecidableEq, Repr

/-- Response body of POST realtime-analysis in part_002 (lines 20-31): the
visualizations field is a JS object keyed by type, modelled as an
association list in key insertion order. -/
structure RealtimeAnalysisResponse where
  success : Bool
  message : Option String := none
  warning : Option String := none
  error : Option String := none
  visualizations : Option (List (String × Visualization)) := none
  stats : Option Stats := none
deriving DecidableEq, Repr

/-- Response body of POST realtime-analysis in the front end/ts/app.ts
variant (lines 20-26): at most one visualization. -/
structure RealtimeAnalysisResponseTs where
  success : Bool
  message : Option String := none
  warning : Option String := none
  error : Option String := none
  visualization : Option Visualization := none
deriving DecidableEq, Repr

/-- Response body of GET visualizations. -/
structure VizApiResponse where
  success : Bool
  visualizations : Option (List Visualization) := none
  error : Option String := none
deriving DecidableEq, Repr

/-- Response body of GET sessions. -/
structure SessionsApiResponse where
  success : Bool
  sessions : Option (List String) := none
  error : Option String := none
deriving DecidableEq, Repr

/-- Outcome of one awaited fetch: the promise rejects (network failure, or a
body that fails to parse as JSON), or it resolves with a non-2xx status, or
it resolves with status OK and a parsed JSON body. -/
inductive FetchOutcome (α : Type) where
  | transportError
  | httpError (status : Nat) (statusText : String)
  | ok (body : α)
deriving DecidableEq, Repr

/-- Kind tag passed to showToast (part_002 line 471). -/
inductive ToastKind where
  | success
  | error
  | info
deriving DecidableEq, Repr

/-- One constructor per user-facing message call site in the sources, each
carrying the data interpolated into the on-screen string. -/
inductive Msg where
  | failedLoadSessions (err : String)
  | errorLoadingSessions
  | substituted (requested shown : String)
  | analysisCompletedStats (generated posts : Nat)
  | realtimeCompleted
  | realtimeFailed (err : String)
  | realtimeFailedHttp (status : Nat) (statusText : String)
  | realtimeRuntimeFailure
  | cannotConnect
  | analysisFailedNoViz
  | analysisFailedHttp (status : Nat) (statusText : String)
  | analysisFailedTransport
  | selectSessionFirst
  | warningText (w : String)
  | stillGenerating
  | fetchVizFailed (vizType : String)
  | noVizAvailableFor (vizType : String)
  | errorFetchingViz (vizType : String)
deriving DecidableEq, Repr

/-- Observable effects, in program order. -/
inductive Event where
  | fetchSessions (round : String)
  | fetchViz (round sessionId vizType : String)
  | fetchRealtime (round sessionId : String)
  | fetchRealtimeTs (round sessionId vizType : String)
  | pollCall (round sessionId vizType : String) (intervalMs maxAttempts : Nat)
  | delay (ms : Nat)
  | setDisabled (b : Bool)
  | setLabel (l : String)
  | display (v : Visualization)
  | cacheBatch (batch : List (String × Visualization))
  | toast (m : Msg) (k : ToastKind)
  | showLoading
  | hideLoading
  | resetStep (n : Nat)
deriving DecidableEq, Repr

abbrev Trace := List Event

/-- The page-level mutable state of part_002: the module-level let bindings
(lines 33-49) plus the DOM state the code reads and writes. -/
structure AppState where
  currentRound : Option String := none
  selectedSession : Option String := none
  selectedVisualizationType : String := "timeline"
  isRealtimeMode : Bool := true
  checkedVizRadio : Option String := none
  lastRealtimeVisualizations : Option (List (String × Visualization)) := none
  analyzeDisabled : Bool := false
  analyzeLabel : String := ""
  analyzeClass : String := ""
  sessionGrid : List String := []
  displayed : Option Visualization := none
  currStep : Nat := 1
  sessionCardVisible : Bool := false
  vizCardVisible : Bool := false
  resultsCardVisible : Bool := false
  loadingVisible : Bool := false
deriving DecidableEq, Repr

/-- JS truthiness of a string-or-null value: null and the empty string are
falsy. -/
def truthy : Option String → Bool
  | none => false
  | some s => s != ""

/-- JS short-circuit fallback for strings: x or default, where the empty
string also falls through to the default. -/
def orDefault (o : Option String) (d : String) : String :=
  match o with
  | some e => if e != "" then e else d
  | none => d

/-- getSelectedVisualizationType (part_002 lines 145-148): value of the
checked viz-type radio, defaulting to timeline when none is checked. -/
def getSelectedVisualizationType (s : AppState) : String :=
  s.checkedVizRadio.getD "timeline"

/-- updateAnalyzeButton (part_002 lines 329-341): hasSelections is a strict
null comparison on selectedSession, so the button state is a pure function
of selectedSession. -/
def updateAnalyzeButton (s : AppState) : AppState × Trace :=
  match s.selectedSession with
  | some sess =>
      ({ s with analyzeDisabled := false,
                analyzeLabel := "Real-time Analyze " ++ sess,
                analyzeClass := "btn-realtime w-full" },
       [Event.setDisabled false, Event.setLabel ("Real-time Analyze " ++ sess)])
  | none =>
      ({ s with analyzeDisabled := true,
                analyzeLabel := "Select session to analyze",
                analyzeClass := "bg-gray-400 text-white px-6 py-3 rounded-lg w-full font-medium cursor-not-allowed" },
       [Event.setDisabled true, Event.setLabel "Select session to analyze"])

/-- displayVisualization (part_002 lines 343-350): renders the base64
payload into the image element. -/
def displayVisualization (s : AppState) (v : Visualization) : AppState × Trace :=
  ({ s with displayed := some v }, [Event.display v])

/-- resetToStep (part_002 lines 550-576): hides the three later cards, then
shows a prefix of them depending on the step, and records the step via
updateProgress. The round-selection card is never hidden anywhere in the
sources. -/
def resetToStep (step : Nat) (s : AppState) : AppState × Trace :=
  let hidden := { s with sessionCardVisible := false, vizCardVisible := false,
                         resultsCardVisible := false }
  let shown :=
    match step with
    | 1 => hidden
    | 2 => { hidden with sessionCardVisible := true }
    | 3 => { hidden with sessionCardVisible := true, vizCardVisible := true }
    | 4 => { hidden with sessionCardVisible := true, vizCardVisible := true,
                         resultsCardVisible := true }
    | _ => hidden
  ({ shown with currStep := step }, [Event.resetStep step])

/-- Panel numbering of the spec: 1 round-select (never hidden by any code
path in the sources), 2 session-select, 3 viz-type-select, 4 results. -/
def panelVisible (s : AppState) : Nat → Bool
  | 1 => true
  | 2 => s.sessionCardVisible
  | 3 => s.vizCardVisible
  | 4 => s.resultsCardVisible
  | _ => false

/-- populateSessionGrid (part_002 lines 301-327): clears the grid, clears
selectedSession, and rebuilds one radio button per session. -/
def populateSessionGrid (sessions : List String) (s : AppState) : AppState :=
  { s with sessionGrid := sessions, selectedSession := none }

/-- Continuation of loadSessions after its fetch resolves (part_002 lines
125-143). This function calls response.json without checking response.ok,
so a non-2xx response either parses (the ok constructor carries the parsed
body) or throws while parsing, which lands in the same catch as a transport
failure. -/
def loadSessionsCont (resp : FetchOutcome SessionsApiResponse) (s : AppState) :
    AppState × Trace :=
  match resp with
  | FetchOutcome.ok body =>
      match body.success, body.sessions with
      | true, some sessions => (populateSessionGrid sessions s, [])
      | _, _ =>
          (s, [Event.toast (Msg.failedLoadSessions (orDefault body.error "Unknown error")) ToastKind.error])
  | _ => (s, [Event.toast Msg.errorLoadingSessions ToastKind.error])

/-- The round-select change handler (part_002 lines 368-382) up to its
suspension point: all mutations performed before the sessions fetch
response can arrive. For a truthy round the trace ends with the issued
sessions request; for a falsy round the handler completes synchronously. -/
def onRoundChangeSync (s : AppState) (newRound : String) : AppState × Trace :=
  let s1 := { s with currentRound := some newRound }
  if truthy s1.currentRound then
    let r2 := resetToStep 2 s1
    (r2.1, r2.2 ++ [Event.fetchSessions newRound])
  else
    let r1 := resetToStep 1 s1
    let s2 := { r1.1 with sessionGrid := [], selectedSession := none }
    let u := updateAnalyzeButton s2
    (u.1, r1.2 ++ u.2)

/-- The full round-select change handler, including the loadSessions
continuation when a request was issued. -/
def onRoundChange (s : AppState) (newRound : String)
    (resp : FetchOutcome SessionsApiResponse) : AppState × Trace :=
  let sync := onRoundChangeSync s newRound
  if truthy (some newRound) then
    let cont := loadSessionsCont resp sync.1
    (cont.1, sync.2 ++ cont.2)
  else sync

/-- The single toast at the end of the realtime success branch (part_002
lines 256-261): generation stats when present, a generic success message
otherwise. -/
def realtimeStatsToast (stats : Option Stats) : Event :=
  match stats with
  | some st =>
      Event.toast (Msg.analysisCompletedStats st.visualizations_generated st.post_limit) ToastKind.success
  | none => Event.toast Msg.realtimeCompleted ToastKind.success

/-- The success branch body of performRealtimeAnalysis (part_002 lines
241-263): cache the batch, then display the selected type if present,
otherwise display the first listed type and toast a substitution notice.
An empty batch makes displayVisualization dereference undefined, raising a
TypeError that the enclosing catch turns into an error toast, skipping the
stats toast. -/
def performRealtimeSuccess (s : AppState) (batch : List (String × Visualization))
    (stats : Option Stats) : AppState × Trace :=
  let s1 := { s with lastRealtimeVisualizations := some batch }
  let selType := getSelectedVisualizationType s1
  match List.lookup selType batch with
  | some v =>
      let d := displayVisualization s1 v
      (d.1, Event.cacheBatch batch :: d.2 ++ [realtimeStatsToast stats])
  | none =>
      match batch with
      | [] =>
          (s1, [Event.cacheBatch batch, Event.toast Msg.realtimeRuntimeFailure ToastKind.error])
      | (t0, v0) :: _ =>
          let d := displayVisualization s1 v0
          (d.1, Event.cacheBatch batch :: d.2 ++
            [Event.toast (Msg.substituted selType t0) ToastKind.info, realtimeStatsToast stats])

/-- The unconditional cleanup of performRealtimeAnalysis (part_002 lines
281-285): hide the loading card, re-enable the button, recompute it. -/
def realtimeCleanup (s : AppState) : AppState × Trace :=
  let s1 := { s with loadingVisible := false, analyzeDisabled := false }
  let u := updateAnalyzeButton s1
  (u.1, [Event.hideLoading, Event.setDisabled false] ++ u.2)

/-- performRealtimeAnalysis (part_002 lines 202-286), given the outcome of
the POST. A rejected fetch is a TypeError whose message contains fetch, so
the transport constructor maps to the cannot-connect toast. -/
def performRealtimeAnalysis (s : AppState)
    (resp : FetchOutcome RealtimeAnalysisResponse) : AppState × Trace :=
  if truthy s.selectedSession && truthy s.currentRound then
    let s1 := { s with analyzeDisabled := true,
                       analyzeLabel := "Processing real-time data...",
                       loadingVisible := true }
    let t1 : Trace := [Event.setDisabled true,
      Event.setLabel "Processing real-time data...", Event.showLoading,
      Event.fetchRealtime (s.currentRound.getD "") (s.selectedSession.getD "")]
    let body : AppState × Trace :=
      match resp with
      | FetchOutcome.ok body =>
          match body.success, body.visualizations with
          | true, some batch => performRealtimeSuccess s1 batch body.stats
          | _, _ =>
              (s1, [Event.toast (Msg.realtimeFailed (orDefault body.error "Unknown error occurred")) ToastKind.error])
      | FetchOutcome.httpError st txt =>
          (s1, [Event.toast (Msg.realtimeFailedHttp st txt) ToastKind.error])
      | FetchOutcome.transportError =>
          (s1, [Event.toast Msg.cannotConnect ToastKind.error])
    let fin := realtimeCleanup body.1
    (fin.1, t1 ++ body.2 ++ fin.2)
  else (s, [])

/-- The cleanup of the precomputed path of analyzeSentiment (part_002 lines
196-199). -/
def analyzeCleanup (s : AppState) : AppState × Trace :=
  let s1 := { s with analyzeDisabled := false }
  let u := updateAnalyzeButton s1
  (u.1, Event.setDisabled false :: u.2)

/-- analyzeSentiment (part_002 lines 150-200): returns immediately when no
session is selected, delegates to performRealtimeAnalysis in realtime mode
(isRealtimeMode is initialised to true and never reassigned), and
otherwise runs the precomputed visualizations fetch, whose non-display
outcomes are all converted into a thrown Error that its own catch shows as
an error toast. -/
def analyzeSentiment (s : AppState) (rtResp : FetchOutcome RealtimeAnalysisResponse)
    (vizResp : FetchOutcome VizApiResponse) : AppState × Trace :=
  if truthy s.selectedSession then
    if s.isRealtimeMode then performRealtimeAnalysis s rtResp
    else
      let s1 := { s with analyzeDisabled := true, analyzeLabel := "analyzing.." }
      let visType := getSelectedVisualizationType s1
      let t1 : Trace := [Event.setDisabled true, Event.setLabel "analyzing..",
        Event.fetchViz (s.currentRound.getD "null") (s.selectedSession.getD "") visType]
      let body : AppState × Trace :=
        match vizResp with
        | FetchOutcome.ok body =>
            match body.success, body.visualizations with
            | true, some (v :: _) => displayVisualization s1 v
            | _, _ => (s1, [Event.toast Msg.analysisFailedNoViz ToastKind.error])
        | FetchOutcome.httpError st txt =>
            (s1, [Event.toast (Msg.analysisFailedHttp st txt) ToastKind.error])
        | FetchOutcome.transportError =>
            (s1, [Event.toast Msg.analysisFailedTransport ToastKind.error])
      let fin := analyzeCleanup body.1
      (fin.1, t1 ++ body.2 ++ fin.2)
  else (s, [])

/-- handleAnalyzeClick (part_002 lines 403-455): ignores clicks while the
button is disabled, disables it, validates the selection, runs
analyzeSentiment (which never throws, all of its failure paths being
caught inside), advances to step 4, and re-enables in the finally block.
The validation-failure path re-enables without recomputing the button. -/
def handleAnalyzeClick (s : AppState)
    (rtResp : FetchOutcome RealtimeAnalysisResponse)
    (vizResp : FetchOutcome VizApiResponse) : AppState × Trace :=
  if s.analyzeDisabled then (s, [])
  else
    let s1 := { s with analyzeDisabled := true }
    if truthy s1.selectedSession && truthy s1.currentRound then
      let a := analyzeSentiment s1 rtResp vizResp
      let r4 := resetToStep 4 a.1
      let s2 := { r4.1 with analyzeDisabled := false }
      let u := updateAnalyzeButton s2
      (u.1, Event.setDisabled true :: (a.2 ++ r4.2 ++ [Event.setDisabled false] ++ u.2))
    else
      ({ s1 with analyzeDisabled := false },
       [Event.setDisabled true, Event.toast Msg.selectSessionFirst ToastKind.error,
        Event.setDisabled false])

/-- The fetch fallback of handleVizTypeChange (part_002 lines 659-679),
reached on a cache miss with a round and session selected. This call site
does check resp.ok before parsing. -/
def handleVizTypeFetch (s : AppState) (selected : String)
    (resp : FetchOutcome VizApiResponse) : AppState × Trace :=
  let t1 : Trace :=
    [Event.fetchViz (s.currentRound.getD "") (s.selectedSession.getD "") selected]
  match resp with
  | FetchOutcome.httpError _ _ =>
      (s, t1 ++ [Event.toast (Msg.fetchVizFailed selected) ToastKind.error])
  | FetchOutcome.transportError =>
      (s, t1 ++ [Event.toast (Msg.errorFetchingViz selected) ToastKind.error])
  | FetchOutcome.ok body =>
      match body.success, body.visualizations with
      | true, some (v :: _) =>
          let d := displayVisualization s v
          (d.1, t1 ++ d.2)
      | _, _ =>
          (s, t1 ++ [Event.toast (Msg.noVizAvailableFor selected) ToastKind.info])

/-- handleVizTypeChange (part_002 lines 650-679): serve the newly selected
type from the cached realtime batch when the cache holds it, otherwise
fetch it, provided a round and session are selected. -/
def handleVizTypeChange (s : AppState) (resp : FetchOutcome VizApiResponse) :
    AppState × Trace :=
  let selected := getSelectedVisualizationType s
  match s.lastRealtimeVisualizations.bind (fun b => List.lookup selected b) with
  | some v => displayVisualization s v
  | none =>
      if truthy s.currentRound && truthy s.selectedSession then
        handleVizTypeFetch s selected resp
      else (s, [])

/-- Whether one poll attempt outcome carries a usable result: HTTP OK,
success true, and at least one visualization (part_002 line 637). -/
def isGood : FetchOutcome VizApiResponse → Bool
  | FetchOutcome.ok body =>
      match body.success, body.visualizations with
      | true, some (_ :: _) => true
      | _, _ => false
  | _ => false

/-- Result of a poll run: whether a visualization was found, how many fetch
attempts were made, what was displayed, and the emitted trace. -/
structure PollResult where
  found : Bool
  attempts : Nat
  displayedViz : Option Visualization
  trace : Trace
deriving DecidableEq, Repr

/-- The loop of pollForVisualization (part_002 lines 622-648): each attempt
fetches; a good response displays its first visualization and returns
true; every other outcome (non-OK status, transport error, empty success)
waits intervalMs and continues; running out of attempts returns false.
fuel is the number of attempts remaining, i the index of the next
attempt in the scripted outcome sequence. -/
def pollLoop (round sessionId visType : String)
    (script : Nat → FetchOutcome VizApiResponse) (intervalMs : Nat) :
    Nat → Nat → PollResult
  | 0, _ => ⟨false, 0, none, []⟩
  | fuel + 1, i =>
      let ev := Event.fetchViz round sessionId visType
      match script i with
      | FetchOutcome.ok body =>
          match body.success, body.visualizations with
          | true, some (v :: _) => ⟨true, 1, some v, [ev, Event.display v]⟩
          | _, _ =>
              let rest := pollLoop round sessionId visType script intervalMs fuel (i + 1)
              ⟨rest.found, rest.attempts + 1, rest.displayedViz,
               ev :: Event.delay intervalMs :: rest.trace⟩
      | _ =>
          let rest := pollLoop round sessionId visType script intervalMs fuel (i + 1)
          ⟨rest.found, rest.attempts + 1, rest.displayedViz,
           ev :: Event.delay intervalMs :: rest.trace⟩

/-- pollForVisualization: run the loop with maxAttempts fuel from attempt
0. The defaults in the source are intervalMs 2000, maxAttempts 10. -/
def pollForVisualization (round sessionId visType : String)
    (script : Nat → FetchOutcome VizApiResponse) (intervalMs maxAttempts : Nat) :
    PollResult :=
  pollLoop round sessionId visType script intervalMs maxAttempts 0

/-- performRealtimeAnalysis of front end/ts/app.ts (lines 201-268): single
visualization in the response; on a success carrying no visualization but
a warning, it toasts the warning and falls back to pollForVisualization
with the selected type, intervalMs 2000, maxAttempts 15. pollScript
scripts the outcomes of the poll attempts. A success with neither
visualization nor warning falls through silently. -/
def performRealtimeAnalysisTs (s : AppState)
    (resp : FetchOutcome RealtimeAnalysisResponseTs)
    (pollScript : Nat → FetchOutcome VizApiResponse) : AppState × Trace :=
  if truthy s.selectedSession && truthy s.currentRound then
    let round := s.currentRound.getD ""
    let sess := s.selectedSession.getD ""
    let s1 := { s with analyzeDisabled := true,
                       analyzeLabel := "Processing real-time data...",
                       loadingVisible := true }
    let visType := getSelectedVisualizationType s1
    let t1 : Trace := [Event.setDisabled true,
      Event.setLabel "Processing real-time data...", Event.showLoading,
      Event.fetchRealtimeTs round sess visType]
    let body : AppState × Trace :=
      match resp with
      | FetchOutcome.ok body =>
          if body.success then
            match body.visualization with
            | some v =>
                let d := displayVisualization s1 v
                (d.1, d.2 ++ [Event.toast Msg.realtimeCompleted ToastKind.success])
            | none =>
                match body.warning with
                | some w =>
                    let pr := pollForVisualization round sess visType pollScript 2000 15
                    let s2 := match pr.displayedViz with
                      | some v => { s1 with displayed := some v }
                      | none => s1
                    (s2, Event.toast (Msg.warningText w) ToastKind.info ::
                          Event.pollCall round sess visType 2000 15 :: pr.trace ++
                          (if pr.found then [] else [Event.toast Msg.stillGenerating ToastKind.info]))
                | none => (s1, [])
          else
            (s1, [Event.toast (Msg.realtimeFailed (orDefault body.error "Unknown error occurred")) ToastKind.error])
      | FetchOutcome.httpError st txt =>
          (s1, [Event.toast (Msg.realtimeFailedHttp st txt) ToastKind.error])
      | FetchOutcome.transportError =>
          (s1, [Event.toast Msg.cannotConnect ToastKind.error])
    let fin := realtimeCleanup body.1
    (fin.1, t1 ++ body.2 ++ fin.2)
  else (s, [])

/-- Values written to the disabled property of the analyze button, in
order. -/
def disabledWrites (t : Trace) : List Bool :=
  t.filterMap fun e =>
    match e with
    | Event.setDisabled b => some b
    | _ => none

/-- Number of disabled-to-enabled transitions along a sequence of writes,
starting from the given current value. -/
def reenableCount : Bool → List Bool → Nat
  | _, [] => 0
  | cur, b :: bs => (if cur && !b then 1 else 0) + reenableCount b bs

/-- Number of substitution notices in a trace. -/
def substitutionToasts (t : Trace) : Nat :=
  t.countP fun e =>
    match e with
    | Event.toast (Msg.substituted _ _) _ => true
    | _ => false

/-- Number of error-kind notifications in a trace. -/
def errorToasts (t : Trace) : Nat :=
  t.countP fun e =>
    match e with
    | Event.toast _ ToastKind.error => true
    | _ => false

/-- Number of poller invocations recorded in a trace. -/
def pollCalls (t : Trace) : Nat :=
  t.countP fun e =>
    match e with
    | Event.pollCall _ _ _ _ _ => true
    | _ => false

/-- Number of GET visualizations requests in a trace. -/
def vizFetches (t : Trace) : Nat :=
  t.countP fun e =>
    match e with
    | Event.fetchViz _ _ _ => true
    | _ => false

/-! Small projection lemmas about the button recomputation helper. -/

@[simp]
lemma updateAnalyzeButton_cache (s : AppState) :
    (updateAnalyzeButton s).1.lastRealtimeVisualizations = s.lastRealtimeVisualizations := by
  cases h : s.selectedSession <;> simp [updateAnalyzeButton, h]

@[simp]
lemma updateAnalyzeButton_session (s : AppState) :
    (updateAnalyzeButton s).1.selectedSession = s.selectedSession := by
  cases h : s.selectedSession <;> simp [updateAnalyzeButton, h]

@[simp]
lemma updateAnalyzeButton_displayed (s : AppState) :
    (updateAnalyzeButton s).1.displayed = s.displayed := by
  cases h : s.selectedSession <;> simp [updateAnalyzeButton, h]

lemma updateAnalyzeButton_idem (s : AppState) :
    (updateAnalyzeButton (updateAnalyzeButton s).1).1 = (updateAnalyzeButton s).1 := by
  cases h : s.selectedSession <;> simp [updateAnalyzeButton, h]

/-! C1. Round-change clearing behavior. -/

lemma performRealtimeSuccess_cache (s : AppState)
    (batch : List (String × Visualization)) (stats : Option Stats) :
    (performRealtimeSuccess s batch stats).1.lastRealtimeVisualizations = some batch := by
  rcases hlk : List.lookup (s.checkedVizRadio.getD "timeline") batch with _ | v
  · rcases batch with _ | ⟨⟨t0, v0⟩, rest⟩
    · simp [performRealtimeSuccess, getSelectedVisualizationType, hlk, displayVisualization]
    · simp [performRealtimeSuccess, getSelectedVisualizationType, hlk, displayVisualization]
  · simp [performRealtimeSuccess, getSelectedVisualizationType, hlk, displayVisualization]

lemma performRealtime_cache_not_cleared (s : AppState)
    (rt : FetchOutcome RealtimeAnalysisResponse)
    (h : s.lastRealtimeVisualizations ≠ none) :
    (performRealtimeAnalysis s rt).1.lastRealtimeVisualizations ≠ none := by
  unfold performRealtimeAnalysis
  split
  · rcases rt with _ | ⟨st, txt⟩ | ⟨succ, msg, warn, err, viz, stats⟩
    · simpa [realtimeCleanup] using h
    · simpa [realtimeCleanup] using h
    · cases succ <;> rcases viz with _ | batch <;>
        simp [realtimeCleanup, performRealtimeSuccess_cache, h]
  · simpa using h

/-- C1 counterexample: selecting the non-empty round 5 while session Race is
selected and a realtime batch is cached issues the session-list request
with neither selectedSession nor the cached batch cleared, refuting the
claim that both are cleared before the request for the new round. -/
theorem round_change_preclear_counterexample :
    ((onRoundChangeSync
        ({ currentRound := some "3", selectedSession := some "Race",
           lastRealtimeVisualizations :=
             some [("timeline", Visualization.mk "timeline" "img")] } : AppState)
        "5").1.selectedSession ≠ none) ∧
    ((onRoundChangeSync
        ({ currentRound := some "3", selectedSession := some "Race",
           lastRealtimeVisualizations :=
             some [("timeline", Visualization.mk "timeline" "img")] } : AppState)
        "5").1.lastRealtimeVisualizations ≠ none) ∧
    ((onRoundChangeSync
        ({ currentRound := some "3", selectedSession := some "Race",
           lastRealtimeVisualizations :=
             some [("timeline", Visualization.mk "timeline" "img")] } : AppState)
        "5").2.getLast? = some (Event.fetchSessions "5")) := by
  refine ⟨?_, ?_, ?_⟩ <;> decide

/-- C1 amended: on a non-empty round change the handler issues the
session-list request with selectedSession and the cached realtime batch
unchanged; selectedSession is cleared only once the session response
populates the grid; and the cached batch is never cleared by starting an
analysis, only kept or overwritten. -/
theorem round_change_clearing_behavior (s : AppState) (newRound : String)
    (resp : FetchOutcome SessionsApiResponse)
    (rt : FetchOutcome RealtimeAnalysisResponse)
    (h : truthy (some newRound) = true) :
    ((onRoundChangeSync s newRound).1.selectedSession = s.selectedSession) ∧
    ((onRoundChangeSync s newRound).1.lastRealtimeVisualizations =
        s.lastRealtimeVisualizations) ∧
    ((onRoundChangeSync s newRound).2.getLast? = some (Event.fetchSessions newRound)) ∧
    ((onRoundChange s newRound resp).1.lastRealtimeVisualizations =
        s.lastRealtimeVisualizations) ∧
    (∀ sessions err,
        resp = FetchOutcome.ok { success := true, sessions := some sessions, error := err } →
        (onRoundChange s newRound resp).1.selectedSession = none) ∧
    (s.lastRealtimeVisualizations ≠ none →
        (performRealtimeAnalysis s rt).1.lastRealtimeVisualizations ≠ none) := by
  refine ⟨?_, ?_, ?_, ?_, ?_, performRealtime_cache_not_cleared s rt⟩
  · simp [onRoundChangeSync, h, resetToStep]
  · simp [onRoundChangeSync, h, resetToStep]
  · simp [onRoundChangeSync, h, resetToStep]
  · rcases resp with _ | ⟨st, txt⟩ | ⟨succ, sessions, err⟩
    · simp [onRoundChange, onRoundChangeSync, h, resetToStep, loadSessionsCont]
    · simp [onRoundChange, onRoundChangeSync, h, resetToStep, loadSessionsCont]
    · cases succ <;> rcases sessions with _ | l <;>
        simp [onRoundChange, onRoundChangeSync, h, resetToStep, loadSessionsCont,
          populateSessionGrid]
  · intro sessions err hresp
    subst hresp
    simp [onRoundChange, onRoundChangeSync, h, resetToStep, loadSessionsCont,
      populateSessionGrid]

/-- Witness for C1 amended at round 5 with a selected session, a cached
batch and a successful sessions response. -/
theorem round_change_clearing_behavior_witness :
    (truthy (some "5") = true) ∧
    (((onRoundChangeSync
          ({ currentRound := some "3", selectedSession := some "Race",
             lastRealtimeVisualizations :=
               some [("timeline", Visualization.mk "timeline" "img")] } : AppState)
          "5").1.selectedSession =
        ({ currentRound := some "3", selectedSession := some "Race",
           lastRealtimeVisualizations :=
             some [("timeline", Visualization.mk "timeline" "img")] } : AppState).selectedSession) ∧
     ((onRoundChangeSync
          ({ currentRound := some "3", selectedSession := some "Race",
             lastRealtimeVisualizations :=
               some [("timeline", Visualization.mk "timeline" "img")] } : AppState)
          "5").1.lastRealtimeVisualizations =
        ({ currentRound := some "3", selectedSession := some "Race",
           lastRealtimeVisualizations :=
             some [("timeline", Visualization.mk "timeline" "img")] } : AppState).lastRealtimeVisualizations) ∧
     ((onRoundChangeSync
          ({ currentRound := some "3", selectedSession := some "Race",
             lastRealtimeVisualizations :=
               some [("timeline", Visualization.mk "timeline" "img")] } : AppState)
          "5").2.getLast? = some (Event.fetchSessions "5")) ∧
     ((onRoundChange
          ({ currentRound := some "3", selectedSession := some "Race",
             lastRealtimeVisualizations :=
               some [("timeline", Visualization.mk "timeline" "img")] } : AppState)
          "5" (FetchOutcome.ok { success := true, sessions := some ["Race", "Qualifying"] })).1.lastRealtimeVisualizations =
        ({ currentRound := some "3", selectedSession := some "Race",
           lastRealtimeVisualizations :=
             some [("timeline", Visualization.mk "timeline" "img")] } : AppState).lastRealtimeVisualizations) ∧
     (∀ sessions err,
        (FetchOutcome.ok { success := true, sessions := some ["Race", "Qualifying"] } :
            FetchOutcome SessionsApiResponse) =
          FetchOutcome.ok { success := true, sessions := some sessions, error := err } →
        (onRoundChange
            ({ currentRound := some "3", selectedSession := some "Race",
               lastRealtimeVisualizations :=
                 some [("timeline", Visualization.mk "timeline" "img")] } : AppState)
            "5" (FetchOutcome.ok { success := true, sessions := some ["Race", "Qualifying"] })).1.selectedSession = none) ∧
     (({ currentRound := some "3", selectedSession := some "Race",
         lastRealtimeVisualizations :=
           some [("timeline", Visualization.mk "timeline" "img")] } : AppState).lastRealtimeVisualizations ≠ none →
        (performRealtimeAnalysis
            ({ currentRound := some "3", selectedSession := some "Race",
               lastRealtimeVisualizations :=
                 some [("timeline", Visualization.mk "timeline" "img")] } : AppState)
            FetchOutcome.transportError).1.lastRealtimeVisualizations ≠ none)) :=
  ⟨by decide,
    round_change_clearing_behavior
      ({ currentRound := some "3", selectedSession := some "Race",
         lastRealtimeVisualizations :=
           some [("timeline", Visualization.mk "timeline" "img")] } : AppState)
      "5" (FetchOutcome.ok { success := true, sessions := some ["Race", "Qualifying"] })
      FetchOutcome.transportError (by decide)⟩

/-! C9. Wizard step visibility. -/

/-- C9: for every state and every wizard step between 1 and 4, resetToStep
makes exactly the panels 1..N visible (hence panel N+1 is never visible
while panel N is hidden), re-entering the same step is a no-op on the
state, and the resulting visibility is independent of the history, so the
invariant holds along every reachable step sequence. -/
theorem wizard_step_prefix_invariant (s : AppState) (step : Nat)
    (h1 : 1 ≤ step) (h2 : step ≤ 4) :
    (∀ k, 1 ≤ k → k ≤ 4 → (panelVisible (resetToStep step s).1 k = true ↔ k ≤ step)) ∧
    (∀ k, 1 ≤ k → k < 4 →
      panelVisible (resetToStep step s).1 (k + 1) = true →
      panelVisible (resetToStep step s).1 k = true) ∧
    (resetToStep step (resetToStep step s).1).1 = (resetToStep step s).1 ∧
    (∀ s2 : AppState, ∀ k,
      panelVisible (resetToStep step s2).1 k = panelVisible (resetToStep step s).1 k) := by
  interval_cases step <;>
    refine ⟨?_, ?_, rfl, ?_⟩ <;>
    first
      | (intro k hk1 hk2
         interval_cases k <;> simp [resetToStep, panelVisible])
      | (intro s2 k
         rcases k with _ | _ | _ | _ | _ | k <;> simp [resetToStep, panelVisible])

/-- Witness for C9 at step 3 and the default initial state. -/
theorem wizard_step_prefix_invariant_witness :
    (1 ≤ 3 ∧ 3 ≤ 4) ∧
    ((∀ k, 1 ≤ k → k ≤ 4 →
        (panelVisible (resetToStep 3 ({} : AppState)).1 k = true ↔ k ≤ 3)) ∧
     (∀ k, 1 ≤ k → k < 4 →
        panelVisible (resetToStep 3 ({} : AppState)).1 (k + 1) = true →
        panelVisible (resetToStep 3 ({} : AppState)).1 k = true) ∧
     (resetToStep 3 (resetToStep 3 ({} : AppState)).1).1 = (resetToStep 3 ({} : AppState)).1 ∧
     (∀ s2 : AppState, ∀ k,
        panelVisible (resetToStep 3 s2).1 k = panelVisible (resetToStep 3 ({} : AppState)).1 k)) :=
  ⟨⟨by decide, by decide⟩, wizard_step_prefix_invariant {} 3 (by decide) (by decide)⟩

/-! C10. Cache-first behavior of handleVizTypeChange. -/

lemma vizFetches_handleVizTypeFetch (s : AppState) (selected : String)
    (resp : FetchOutcome VizApiResponse) :
    vizFetches (handleVizTypeFetch s selected resp).2 = 1 := by
  rcases resp with _ | ⟨st, txt⟩ | ⟨succ, viz, err⟩
  · simp [handleVizTypeFetch, vizFetches]
  · simp [handleVizTypeFetch, vizFetches]
  · cases succ <;> rcases viz with _ | ⟨_ | ⟨v, vs⟩⟩ <;>
      simp [handleVizTypeFetch, vizFetches, displayVisualization]

/-- C10: a visualization-type change is served from the cached realtime
batch, with no network request, whenever the cache holds the newly
selected type; on a cache miss the backend is fetched exactly once when a
round and session are selected and never otherwise. -/
theorem viz_type_change_cache_first (s : AppState) (resp : FetchOutcome VizApiResponse) :
    (∀ b v, s.lastRealtimeVisualizations = some b →
        List.lookup (getSelectedVisualizationType s) b = some v →
        (handleVizTypeChange s resp).1.displayed = some v ∧
        vizFetches (handleVizTypeChange s resp).2 = 0) ∧
    (s.lastRealtimeVisualizations.bind
        (fun b => List.lookup (getSelectedVisualizationType s) b) = none →
      vizFetches (handleVizTypeChange s resp).2 =
        (if truthy s.currentRound && truthy s.selectedSession then 1 else 0)) := by
  constructor
  · intro b v hb hv
    simp [handleVizTypeChange, hb, hv, displayVisualization, vizFetches]
  · intro hmiss
    by_cases hsel : (truthy s.currentRound && truthy s.selectedSession) = true
    · simp [handleVizTypeChange, hmiss, hsel, vizFetches_handleVizTypeFetch]
    · simp only [Bool.not_eq_true] at hsel
      simp [handleVizTypeChange, hmiss, hsel, vizFetches]

/-- Witness for C10: with a cached batch holding the selected timeline
type, the change is served from the cache with no request issued. -/
theorem viz_type_change_cache_first_witness :
    ((({ lastRealtimeVisualizations :=
          some [("timeline", (Visualization.mk "timeline" "img"))] } : AppState).lastRealtimeVisualizations =
            some [("timeline", (Visualization.mk "timeline" "img"))]) ∧
     (List.lookup
        (getSelectedVisualizationType
          ({ lastRealtimeVisualizations := some [("timeline", (Visualization.mk "timeline" "img"))] } : AppState))
        [("timeline", (Visualization.mk "timeline" "img"))] = some (Visualization.mk "timeline" "img"))) ∧
    ((handleVizTypeChange
        ({ lastRealtimeVisualizations := some [("timeline", (Visualization.mk "timeline" "img"))] } : AppState)
        FetchOutcome.transportError).1.displayed = some (Visualization.mk "timeline" "img") ∧
     vizFetches
       (handleVizTypeChange
          ({ lastRealtimeVisualizations := some [("timeline", (Visualization.mk "timeline" "img"))] } : AppState)
          FetchOutcome.transportError).2 = 0) :=
  ⟨⟨by decide, by decide⟩,
    (viz_type_change_cache_first
        ({ lastRealtimeVisualizations := some [("timeline", (Visualization.mk "timeline" "img"))] } : AppState)
        FetchOutcome.transportError).1
      [("timeline", (Visualization.mk "timeline" "img"))] (Visualization.mk "timeline" "img") (by decide) (by decide)⟩

/-! Poller lemmas shared by the polling claims. -/

lemma pollLoop_attempts_le (round sessionId visType : String)
    (script : Nat → FetchOutcome VizApiResponse) (intervalMs : Nat) :
    ∀ fuel i, (pollLoop round sessionId visType script intervalMs fuel i).attempts ≤ fuel := by
  intro fuel
  induction fuel with
  | zero => intro i; simp [pollLoop]
  | succ n ih =>
      intro i
      rcases hsc : script i with _ | ⟨st, txt⟩ | ⟨succ, viz, err⟩
      · simp only [pollLoop, hsc]
        exact Nat.succ_le_succ (ih (i + 1))
      · simp only [pollLoop, hsc]
        exact Nat.succ_le_succ (ih (i + 1))
      · cases succ <;> rcases viz with _ | ⟨_ | ⟨v, vs⟩⟩ <;>
          simp only [pollLoop, hsc] <;>
          first
            | exact Nat.succ_le_succ (ih (i + 1))
            | omega

lemma pollLoop_attempts_pos (round sessionId visType : String)
    (script : Nat → FetchOutcome VizApiResponse) (intervalMs : Nat)
    (fuel i : Nat) (h : 1 ≤ fuel) :
    1 ≤ (pollLoop round sessionId visType script intervalMs fuel i).attempts := by
  rcases fuel with _ | n
  · omega
  · rcases hsc : script i with _ | ⟨st, txt⟩ | ⟨succ, viz, err⟩
    · simp only [pollLoop, hsc]; omega
    · simp only [pollLoop, hsc]; omega
    · cases succ <;> rcases viz with _ | ⟨_ | ⟨v, vs⟩⟩ <;>
        simp only [pollLoop, hsc] <;> omega

lemma pollLoop_trace_head (round sessionId visType : String)
    (script : Nat → FetchOutcome VizApiResponse) (intervalMs : Nat)
    (fuel i : Nat) (h : 1 ≤ fuel) :
    (pollLoop round sessionId visType script intervalMs fuel i).trace.head? =
      some (Event.fetchViz round sessionId visType) := by
  rcases fuel with _ | n
  · omega
  · rcases hsc : script i with _ | ⟨st, txt⟩ | ⟨succ, viz, err⟩
    · simp [pollLoop, hsc]
    · simp [pollLoop, hsc]
    · cases succ <;> rcases viz with _ | ⟨_ | ⟨v, vs⟩⟩ <;> simp [pollLoop, hsc]

lemma pollLoop_skip (round sessionId visType : String)
    (script : Nat → FetchOutcome VizApiResponse) (intervalMs : Nat) :
    ∀ (n fuel i : Nat), n ≤ fuel →
      (∀ j, j < n → isGood (script (i + j)) = false) →
      (pollLoop round sessionId visType script intervalMs fuel i).found =
        (pollLoop round sessionId visType script intervalMs (fuel - n) (i + n)).found ∧
      (pollLoop round sessionId visType script intervalMs fuel i).attempts =
        n + (pollLoop round sessionId visType script intervalMs (fuel - n) (i + n)).attempts ∧
      (pollLoop round sessionId visType script intervalMs fuel i).trace =
        (List.replicate n
            [Event.fetchViz round sessionId visType, Event.delay intervalMs]).flatten ++
          (pollLoop round sessionId visType script intervalMs (fuel - n) (i + n)).trace := by
  intro n
  induction n with
  | zero => intro fuel i h1 h2; simp
  | succ m ih =>
      intro fuel i h1 h2
      rcases fuel with _ | f
      · omega
      · have h0 : isGood (script i) = false := by
          have := h2 0 (by omega)
          simpa using this
        have hshift : ∀ j, j < m → isGood (script (i + 1 + j)) = false := by
          intro j hj
          have := h2 (j + 1) (by omega)
          rw [show i + 1 + j = i + (j + 1) by omega]
          exact this
        have hrec := ih f (i + 1) (by omega) hshift
        have hidx1 : f + 1 - (m + 1) = f - m := by omega
        have hidx2 : i + (m + 1) = i + 1 + m := by omega
        rw [hidx1, hidx2]
        rcases hsc : script i with _ | ⟨st, txt⟩ | ⟨succ, viz, err⟩
        · refine ⟨?_, ?_, ?_⟩
          · simp only [pollLoop, hsc]; exact hrec.1
          · simp only [pollLoop, hsc]
            have := hrec.2.1
            omega
          · simp only [pollLoop, hsc, List.replicate_succ, List.flatten_cons]
            rw [hrec.2.2]
            simp
        · refine ⟨?_, ?_, ?_⟩
          · simp only [pollLoop, hsc]; exact hrec.1
          · simp only [pollLoop, hsc]
            have := hrec.2.1
            omega
          · simp only [pollLoop, hsc, List.replicate_succ, List.flatten_cons]
            rw [hrec.2.2]
            simp
        · cases succ <;> rcases viz with _ | ⟨_ | ⟨v, vs⟩⟩
          all_goals
            first
              | (refine ⟨?_, ?_, ?_⟩
                 · simp only [pollLoop, hsc]; exact hrec.1
                 · simp only [pollLoop, hsc]
                   have := hrec.2.1
                   omega
                 · simp only [pollLoop, hsc, List.replicate_succ, List.flatten_cons]
                   rw [hrec.2.2]
                   simp)
              | (simp [isGood, hsc] at h0)

lemma pollLoop_good_now (round sessionId visType : String)
    (script : Nat → FetchOutcome VizApiResponse) (intervalMs : Nat)
    (fuel i : Nat) (h : isGood (script i) = true) :
    (pollLoop round sessionId visType script intervalMs (fuel + 1) i).found = true ∧
    (pollLoop round sessionId visType script intervalMs (fuel + 1) i).attempts = 1 := by
  rcases hsc : script i with _ | ⟨st, txt⟩ | ⟨succ, viz, err⟩
  · simp [isGood, hsc] at h
  · simp [isGood, hsc] at h
  · cases succ <;> rcases viz with _ | ⟨_ | ⟨v, vs⟩⟩ <;>
      first
        | (simp [isGood, hsc] at h
           done)
        | (simp [pollLoop, hsc])

/-! C4. Poll attempt bounds. -/

/-- C4 counterexample: with maxAttempts 0 the poller performs zero fetch
attempts, refuting the claim that it always performs at least one for
every parameter choice. -/
theorem poll_attempt_bounds_counterexample :
    ¬ (1 ≤ (pollForVisualization "1" "Race" "timeline"
        (fun _ => FetchOutcome.ok { success := true, visualizations := some [] })
        2000 0).attempts) := by
  decide

/-- C4 amended: the poller never exceeds maxAttempts fetch attempts, makes
at least one attempt whenever maxAttempts is at least one (with
maxAttempts 0 it makes none), and with maxAttempts 3, intervalMs 0 and a
backend that always answers with an empty success it returns the NotFound
outcome after exactly 3 attempts. -/
theorem poll_attempt_bounds (round sessionId visType : String)
    (script : Nat → FetchOutcome VizApiResponse) (intervalMs maxAttempts : Nat) :
    (pollForVisualization round sessionId visType script intervalMs maxAttempts).attempts ≤
      maxAttempts ∧
    (1 ≤ maxAttempts →
      1 ≤ (pollForVisualization round sessionId visType script intervalMs maxAttempts).attempts) ∧
    ((pollForVisualization round sessionId visType
        (fun _ => FetchOutcome.ok { success := true, visualizations := some [] })
        0 3).found = false ∧
     (pollForVisualization round sessionId visType
        (fun _ => FetchOutcome.ok { success := true, visualizations := some [] })
        0 3).attempts = 3) := by
  refine ⟨pollLoop_attempts_le round sessionId visType script intervalMs maxAttempts 0,
    fun h => pollLoop_attempts_pos round sessionId visType script intervalMs maxAttempts 0 h,
    rfl, rfl⟩

/-- Witness for C4 amended at maxAttempts 3 with an always-failing
transport. -/
theorem poll_attempt_bounds_witness :
    (1 ≤ 3) ∧
    ((pollForVisualization "1" "Race" "timeline"
        (fun _ => FetchOutcome.transportError) 2000 3).attempts ≤ 3 ∧
     (1 ≤ 3 →
       1 ≤ (pollForVisualization "1" "Race" "timeline"
          (fun _ => FetchOutcome.transportError) 2000 3).attempts) ∧
     ((pollForVisualization "1" "Race" "timeline"
          (fun _ => FetchOutcome.ok { success := true, visualizations := some [] })
          0 3).found = false ∧
      (pollForVisualization "1" "Race" "timeline"
          (fun _ => FetchOutcome.ok { success := true, visualizations := some [] })
          0 3).attempts = 3)) :=
  ⟨by decide,
    poll_attempt_bounds "1" "Race" "timeline" (fun _ => FetchOutcome.transportError) 2000 3⟩

/-! C5. Early stop on the first good attempt. -/

/-- C5: the poller stops and returns the found outcome on the first attempt
whose fetch is HTTP OK with success true and a non-empty visualization
list, making exactly that many attempts and no more. -/
theorem poll_stops_on_first_good (round sessionId visType : String)
    (script : Nat → FetchOutcome VizApiResponse) (intervalMs maxAttempts k : Nat)
    (hk : k < maxAttempts)
    (hgood : isGood (script k) = true)
    (hbefore : ∀ j, j < k → isGood (script j) = false) :
    (pollForVisualization round sessionId visType script intervalMs maxAttempts).found = true ∧
    (pollForVisualization round sessionId visType script intervalMs maxAttempts).attempts =
      k + 1 := by
  have hskip := pollLoop_skip round sessionId visType script intervalMs k maxAttempts 0
    (by omega) (by intro j hj; simpa using hbefore j hj)
  obtain ⟨f, hf⟩ : ∃ f, maxAttempts - k = f + 1 := ⟨maxAttempts - k - 1, by omega⟩
  have hg0 : isGood (script (0 + k)) = true := by simpa using hgood
  have hnow := pollLoop_good_now round sessionId visType script intervalMs f (0 + k) hg0
  rw [hf] at hskip
  constructor
  · simp only [pollForVisualization]
    exact hskip.1.trans hnow.1
  · simp only [pollForVisualization]
    rw [hskip.2.1, hnow.2]

/-- Witness for C5: the first attempt fails at the transport level and the
second returns a visualization, so the poll stops after two attempts. -/
theorem poll_stops_on_first_good_witness :
    (1 < 3 ∧ isGood ((fun n => if n == 0 then FetchOutcome.transportError
        else FetchOutcome.ok
          { success := true,
            visualizations := some [Visualization.mk "timeline" "img"] }) 1) = true ∧
      (∀ j, j < 1 → isGood ((fun n => if n == 0 then FetchOutcome.transportError
        else FetchOutcome.ok
          { success := true,
            visualizations := some [Visualization.mk "timeline" "img"] }) j) = false)) ∧
    ((pollForVisualization "1" "Race" "timeline"
        (fun n => if n == 0 then FetchOutcome.transportError
          else FetchOutcome.ok
            { success := true,
              visualizations := some [Visualization.mk "timeline" "img"] })
        0 3).found = true ∧
     (pollForVisualization "1" "Race" "timeline"
        (fun n => if n == 0 then FetchOutcome.transportError
          else FetchOutcome.ok
            { success := true,
              visualizations := some [Visualization.mk "timeline" "img"] })
        0 3).attempts = 1 + 1) :=
  ⟨⟨by decide, by decide, by decide⟩,
    poll_stops_on_first_good "1" "Race" "timeline"
      (fun n => if n == 0 then FetchOutcome.transportError
        else FetchOutcome.ok
          { success := true,
            visualizations := some [Visualization.mk "timeline" "img"] })
      0 3 1 (by decide) (by decide) (by decide)⟩

/-! C6. A failed attempt does not abort the poll. -/

/-- C6: when attempt k fails at the transport level or with a non-OK HTTP
status (earlier attempts having found nothing) and attempts remain, the
poll does not abort: the first k+1 attempts each leave a fetch followed by
the same intervalMs delay, and the next attempt is issued. -/
theorem poll_failure_does_not_abort (round sessionId visType : String)
    (script : Nat → FetchOutcome VizApiResponse) (intervalMs maxAttempts k : Nat)
    (hk : k + 1 < maxAttempts)
    (hfail : script k = FetchOutcome.transportError ∨
             ∃ st txt, script k = FetchOutcome.httpError st txt)
    (hbefore : ∀ j, j < k → isGood (script j) = false) :
    k + 2 ≤ (pollForVisualization round sessionId visType script intervalMs maxAttempts).attempts ∧
    ∃ rest,
      (pollForVisualization round sessionId visType script intervalMs maxAttempts).trace =
        (List.replicate (k + 1)
            [Event.fetchViz round sessionId visType, Event.delay intervalMs]).flatten ++ rest ∧
      rest.head? = some (Event.fetchViz round sessionId visType) := by
  have hkfail : isGood (script k) = false := by
    rcases hfail with h | ⟨st, txt, h⟩ <;> simp [isGood, h]
  have hall : ∀ j, j < k + 1 → isGood (script (0 + j)) = false := by
    intro j hj
    rcases Nat.lt_succ_iff_lt_or_eq.mp hj with h | h
    · simpa using hbefore j h
    · subst h
      simpa using hkfail
  have hskip := pollLoop_skip round sessionId visType script intervalMs (k + 1) maxAttempts 0
    (by omega) hall
  have hposfuel : 1 ≤ maxAttempts - (k + 1) := by omega
  have hpos := pollLoop_attempts_pos round sessionId visType script intervalMs
    (maxAttempts - (k + 1)) (0 + (k + 1)) hposfuel
  have hhead := pollLoop_trace_head round sessionId visType script intervalMs
    (maxAttempts - (k + 1)) (0 + (k + 1)) hposfuel
  constructor
  · have := hskip.2.1
    simp only [pollForVisualization]
    omega
  · exact ⟨_, by simp only [pollForVisualization]; exact hskip.2.2, hhead⟩

/-- Witness for C6: every attempt fails at the transport level, k 0,
maxAttempts 2, so attempt 1 is still issued after the delay. -/
theorem poll_failure_does_not_abort_witness :
    (0 + 1 < 2 ∧ (∀ j, j < 0 →
        isGood ((fun _ => FetchOutcome.transportError) j) = false)) ∧
    (0 + 2 ≤ (pollForVisualization "1" "Race" "timeline"
        (fun _ => FetchOutcome.transportError) 2000 2).attempts ∧
     ∃ rest,
       (pollForVisualization "1" "Race" "timeline"
          (fun _ => FetchOutcome.transportError) 2000 2).trace =
         (List.replicate (0 + 1)
             [Event.fetchViz "1" "Race" "timeline", Event.delay 2000]).flatten ++ rest ∧
       rest.head? = some (Event.fetchViz "1" "Race" "timeline")) :=
  ⟨⟨by decide, by decide⟩,
    poll_failure_does_not_abort "1" "Race" "timeline"
      (fun _ => FetchOutcome.transportError) 2000 2 0 (by decide) (Or.inl rfl)
      (by decide)⟩

/-! Trace-counting helper lemmas. -/

lemma disabledWrites_append (a b : Trace) :
    disabledWrites (a ++ b) = disabledWrites a ++ disabledWrites b := by
  simp [disabledWrites]

lemma disabledWrites_statsToast (stats : Option Stats) :
    disabledWrites [realtimeStatsToast stats] = [] := by
  cases stats <;> rfl

lemma updateAnalyzeButton_disabledWrites (s : AppState) :
    disabledWrites (updateAnalyzeButton s).2 = [s.selectedSession.isNone] := by
  cases h : s.selectedSession <;> simp [updateAnalyzeButton, h, disabledWrites]

lemma updateAnalyzeButton_substitutionToasts (s : AppState) :
    substitutionToasts (updateAnalyzeButton s).2 = 0 := by
  cases h : s.selectedSession <;> simp [updateAnalyzeButton, h, substitutionToasts]

lemma updateAnalyzeButton_errorToasts (s : AppState) :
    errorToasts (updateAnalyzeButton s).2 = 0 := by
  cases h : s.selectedSession <;> simp [updateAnalyzeButton, h, errorToasts]

lemma updateAnalyzeButton_pollCalls (s : AppState) :
    pollCalls (updateAnalyzeButton s).2 = 0 := by
  cases h : s.selectedSession <;> simp [updateAnalyzeButton, h, pollCalls]

lemma substitutionToasts_append (a b : Trace) :
    substitutionToasts (a ++ b) = substitutionToasts a + substitutionToasts b := by
  simp [substitutionToasts]

lemma errorToasts_append (a b : Trace) :
    errorToasts (a ++ b) = errorToasts a + errorToasts b := by
  simp [errorToasts]

lemma pollCalls_append (a b : Trace) :
    pollCalls (a ++ b) = pollCalls a + pollCalls b := by
  simp [pollCalls]

/-! C2. Analyze-button discipline. -/

lemma performRealtimeSuccess_disabledWrites (s : AppState)
    (batch : List (String × Visualization)) (stats : Option Stats) :
    disabledWrites (performRealtimeSuccess s batch stats).2 = [] := by
  rcases hlk : List.lookup (s.checkedVizRadio.getD "timeline") batch with _ | v
  · rcases batch with _ | ⟨⟨t0, v0⟩, rest⟩
    · rcases stats with _ | st <;>
        simp [performRealtimeSuccess, getSelectedVisualizationType, hlk,
          displayVisualization, disabledWrites, realtimeStatsToast]
    · rcases stats with _ | st <;>
        simp [performRealtimeSuccess, getSelectedVisualizationType, hlk,
          displayVisualization, disabledWrites, realtimeStatsToast]
  · rcases stats with _ | st <;>
      simp [performRealtimeSuccess, getSelectedVisualizationType, hlk,
        displayVisualization, disabledWrites, realtimeStatsToast]

lemma performRealtimeSuccess_session (s : AppState)
    (batch : List (String × Visualization)) (stats : Option Stats) :
    (performRealtimeSuccess s batch stats).1.selectedSession = s.selectedSession := by
  rcases hlk : List.lookup (s.checkedVizRadio.getD "timeline") batch with _ | v
  · rcases batch with _ | ⟨⟨t0, v0⟩, rest⟩ <;>
      simp [performRealtimeSuccess, getSelectedVisualizationType, hlk, displayVisualization]
  · simp [performRealtimeSuccess, getSelectedVisualizationType, hlk, displayVisualization]

lemma performRealtime_profile (s : AppState) (rt : FetchOutcome RealtimeAnalysisResponse)
    (hs : truthy s.selectedSession = true) (hr : truthy s.currentRound = true) :
    disabledWrites (performRealtimeAnalysis s rt).2 = [true, false, false] ∧
    (performRealtimeAnalysis s rt).1.selectedSession = s.selectedSession := by
  obtain ⟨sess, hsess⟩ : ∃ x, s.selectedSession = some x := by
    cases h : s.selectedSession
    · rw [h] at hs; simp [truthy] at hs
    · exact ⟨_, rfl⟩
  rw [hsess] at hs
  rcases rt with _ | ⟨st, txt⟩ | ⟨succ, msg, warn, err, viz, stats⟩
  · simp [performRealtimeAnalysis, realtimeCleanup, updateAnalyzeButton,
      disabledWrites, hsess, hs, hr]
  · simp [performRealtimeAnalysis, realtimeCleanup, updateAnalyzeButton,
      disabledWrites, hsess, hs, hr]
  · cases succ
    · simp [performRealtimeAnalysis, realtimeCleanup, updateAnalyzeButton,
        disabledWrites, hsess, hs, hr]
    · rcases viz with _ | batch
      · simp [performRealtimeAnalysis, realtimeCleanup, updateAnalyzeButton,
          disabledWrites, hsess, hs, hr]
      · rcases stats with _ | st0 <;>
          rcases hlk : List.lookup (s.checkedVizRadio.getD "timeline") batch with _ | v
        · rcases batch with _ | ⟨⟨t0, v0⟩, rest⟩ <;>
            simp [performRealtimeAnalysis, performRealtimeSuccess, realtimeCleanup,
              updateAnalyzeButton, realtimeStatsToast, displayVisualization,
              getSelectedVisualizationType, disabledWrites, hsess, hs, hr, hlk]
        · simp [performRealtimeAnalysis, performRealtimeSuccess, realtimeCleanup,
            updateAnalyzeButton, realtimeStatsToast, displayVisualization,
            getSelectedVisualizationType, disabledWrites, hsess, hs, hr, hlk]
        · rcases batch with _ | ⟨⟨t0, v0⟩, rest⟩ <;>
            simp [performRealtimeAnalysis, performRealtimeSuccess, realtimeCleanup,
              updateAnalyzeButton, realtimeStatsToast, displayVisualization,
              getSelectedVisualizationType, disabledWrites, hsess, hs, hr, hlk]
        · simp [performRealtimeAnalysis, performRealtimeSuccess, realtimeCleanup,
            updateAnalyzeButton, realtimeStatsToast, displayVisualization,
            getSelectedVisualizationType, disabledWrites, hsess, hs, hr, hlk]

lemma analyzeSentiment_profile (s : AppState)
    (rt : FetchOutcome RealtimeAnalysisResponse) (vz : FetchOutcome VizApiResponse)
    (hs : truthy s.selectedSession = true) (hr : truthy s.currentRound = true) :
    disabledWrites (analyzeSentiment s rt vz).2 = [true, false, false] ∧
    (analyzeSentiment s rt vz).1.selectedSession = s.selectedSession := by
  obtain ⟨sess, hsess⟩ : ∃ x, s.selectedSession = some x := by
    cases h : s.selectedSession
    · rw [h] at hs; simp [truthy] at hs
    · exact ⟨_, rfl⟩
  cases hm : s.isRealtimeMode
  · have hs2 := hs
    rw [hsess] at hs2
    rcases vz with _ | ⟨st, txt⟩ | ⟨succ, viz, err⟩
    · simp [analyzeSentiment, analyzeCleanup, updateAnalyzeButton, disabledWrites,
        hsess, hs2, hr, hm]
    · simp [analyzeSentiment, analyzeCleanup, updateAnalyzeButton, disabledWrites,
        hsess, hs2, hr, hm]
    · cases succ <;> rcases viz with _ | ⟨_ | ⟨v, vs⟩⟩ <;>
        simp [analyzeSentiment, analyzeCleanup, updateAnalyzeButton, disabledWrites,
          hsess, hs2, hr, hm, displayVisualization]
  · have hp := performRealtime_profile s rt hs hr
    have hs2 := hs
    rw [hsess] at hs2
    simpa [analyzeSentiment, hsess, hs2, hm] using hp

/-- C2: once the analyze click passes validation, every execution path of
the action (realtime or precomputed, success, soft-unavailable and hard
error alike) starts by disabling the trigger control, transitions it from
disabled back to enabled exactly once, and ends with the button state
being a fixed point of the recomputation from the selection state. -/
theorem analyze_trigger_guaranteed_cleanup (s : AppState)
    (rtResp : FetchOutcome RealtimeAnalysisResponse)
    (vizResp : FetchOutcome VizApiResponse)
    (hd : s.analyzeDisabled = false)
    (hs : truthy s.selectedSession = true)
    (hr : truthy s.currentRound = true) :
    ((handleAnalyzeClick s rtResp vizResp).2.head? = some (Event.setDisabled true)) ∧
    (reenableCount false (disabledWrites (handleAnalyzeClick s rtResp vizResp).2) = 1) ∧
    ((updateAnalyzeButton (handleAnalyzeClick s rtResp vizResp).1).1 =
      (handleAnalyzeClick s rtResp vizResp).1) := by
  obtain ⟨sess, hsess⟩ : ∃ x, s.selectedSession = some x := by
    cases h : s.selectedSession
    · rw [h] at hs; simp [truthy] at hs
    · exact ⟨_, rfl⟩
  have hs2 := hs
  rw [hsess] at hs2
  have hprof := analyzeSentiment_profile
    { s with selectedSession := some sess, analyzeDisabled := true } rtResp vizResp
    (by simpa using hs2) (by simpa using hr)
  have h2 : (analyzeSentiment { s with selectedSession := some sess, analyzeDisabled := true }
      rtResp vizResp).1.selectedSession = some sess := by
    simpa using hprof.2
  have hp1 := hprof.1
  simp only [disabledWrites] at hp1
  refine ⟨?_, ?_, ?_⟩
  · simp [handleAnalyzeClick, hd, hsess, hs2, hr]
  · simp [handleAnalyzeClick, hd, hsess, hs2, hr, resetToStep, updateAnalyzeButton,
      disabledWrites, hp1, h2, reenableCount]
  · simp only [handleAnalyzeClick]
    rw [hd]
    simp only [Bool.false_eq_true, if_false]
    rw [if_pos (by simp [hsess, hs2, hr])]
    exact updateAnalyzeButton_idem _

/-- Witness for C2 at a concrete state and a successful realtime
response. -/
theorem analyze_trigger_guaranteed_cleanup_witness :
    ((({ currentRound := some "1", selectedSession := some "Race" } : AppState).analyzeDisabled = false) ∧
     (truthy ({ currentRound := some "1", selectedSession := some "Race" } : AppState).selectedSession = true) ∧
     (truthy ({ currentRound := some "1", selectedSession := some "Race" } : AppState).currentRound = true)) ∧
    (((handleAnalyzeClick ({ currentRound := some "1", selectedSession := some "Race" } : AppState)
        (FetchOutcome.ok { success := true, visualizations := some [("timeline", Visualization.mk "timeline" "img")] })
        FetchOutcome.transportError).2.head? = some (Event.setDisabled true)) ∧
     (reenableCount false (disabledWrites
        (handleAnalyzeClick ({ currentRound := some "1", selectedSession := some "Race" } : AppState)
          (FetchOutcome.ok { success := true, visualizations := some [("timeline", Visualization.mk "timeline" "img")] })
          FetchOutcome.transportError).2) = 1) ∧
     ((updateAnalyzeButton
        (handleAnalyzeClick ({ currentRound := some "1", selectedSession := some "Race" } : AppState)
          (FetchOutcome.ok { success := true, visualizations := some [("timeline", Visualization.mk "timeline" "img")] })
          FetchOutcome.transportError).1).1 =
       (handleAnalyzeClick ({ currentRound := some "1", selectedSession := some "Race" } : AppState)
          (FetchOutcome.ok { success := true, visualizations := some [("timeline", Visualization.mk "timeline" "img")] })
          FetchOutcome.transportError).1)) :=
  ⟨⟨rfl, by decide, by decide⟩,
    analyze_trigger_guaranteed_cleanup
      ({ currentRound := some "1", selectedSession := some "Race" } : AppState)
      (FetchOutcome.ok { success := true, visualizations := some [("timeline", Visualization.mk "timeline" "img")] })
      FetchOutcome.transportError rfl (by decide) (by decide)⟩

/-! C3. Realtime display and substitution. -/

/-- C3: on a successful realtime response carrying a visualization batch,
the orchestration caches the batch; if the batch holds the currently
selected type it displays exactly that visualization and issues no
substitution notice; otherwise it displays the first listed type and
issues exactly one substitution notice naming the requested and the shown
types, the caching event preceding the notice in the trace. -/
theorem realtime_display_and_substitution (s : AppState)
    (batch : List (String × Visualization)) (msg warn err : Option String)
    (stats : Option Stats)
    (hs : truthy s.selectedSession = true) (hr : truthy s.currentRound = true) :
    ((performRealtimeAnalysis s (FetchOutcome.ok
        { success := true, message := msg, warning := warn, error := err,
          visualizations := some batch, stats := stats })).1.lastRealtimeVisualizations = some batch) ∧
    (∀ v, List.lookup (getSelectedVisualizationType s) batch = some v →
      (performRealtimeAnalysis s (FetchOutcome.ok
        { success := true, message := msg, warning := warn, error := err,
          visualizations := some batch, stats := stats })).1.displayed = some v ∧
      substitutionToasts (performRealtimeAnalysis s (FetchOutcome.ok
        { success := true, message := msg, warning := warn, error := err,
          visualizations := some batch, stats := stats })).2 = 0) ∧
    (∀ t0 v0 rest, batch = (t0, v0) :: rest →
      List.lookup (getSelectedVisualizationType s) batch = none →
      (performRealtimeAnalysis s (FetchOutcome.ok
        { success := true, message := msg, warning := warn, error := err,
          visualizations := some batch, stats := stats })).1.displayed = some v0 ∧
      substitutionToasts (performRealtimeAnalysis s (FetchOutcome.ok
        { success := true, message := msg, warning := warn, error := err,
          visualizations := some batch, stats := stats })).2 = 1 ∧
      (∃ pre post,
        (performRealtimeAnalysis s (FetchOutcome.ok
        { success := true, message := msg, warning := warn, error := err,
          visualizations := some batch, stats := stats })).2 =
          pre ++ Event.toast (Msg.substituted (getSelectedVisualizationType s) t0)
              ToastKind.info :: post ∧
        Event.cacheBatch batch ∈ pre)) := by
  obtain ⟨sess, hsess⟩ : ∃ x, s.selectedSession = some x := by
    cases h : s.selectedSession
    · rw [h] at hs; simp [truthy] at hs
    · exact ⟨_, rfl⟩
  have hs2 := hs
  rw [hsess] at hs2
  refine ⟨?_, ?_, ?_⟩
  · simp [performRealtimeAnalysis, hsess, hs2, hr, realtimeCleanup,
      performRealtimeSuccess_cache]
  · intro v hv
    have hv2 : List.lookup (s.checkedVizRadio.getD "timeline") batch = some v := by
      simpa [getSelectedVisualizationType] using hv
    constructor
    · simp [performRealtimeAnalysis, hsess, hs2, hr, performRealtimeSuccess,
        getSelectedVisualizationType, hv2, displayVisualization, realtimeCleanup]
    · rcases stats with _ | st0 <;>
        simp [performRealtimeAnalysis, hsess, hs2, hr, performRealtimeSuccess,
          getSelectedVisualizationType, hv2, displayVisualization, realtimeCleanup,
          updateAnalyzeButton, realtimeStatsToast, substitutionToasts]
  · intro t0 v0 rest hb hnone
    subst hb
    have hn2 : List.lookup (s.checkedVizRadio.getD "timeline") ((t0, v0) :: rest) = none := by
      simpa [getSelectedVisualizationType] using hnone
    refine ⟨?_, ?_, ?_⟩
    · simp [performRealtimeAnalysis, hsess, hs2, hr, performRealtimeSuccess,
        getSelectedVisualizationType, hn2, displayVisualization, realtimeCleanup]
    · rcases stats with _ | st0 <;>
        simp [performRealtimeAnalysis, hsess, hs2, hr, performRealtimeSuccess,
          getSelectedVisualizationType, hn2, displayVisualization, realtimeCleanup,
          updateAnalyzeButton, realtimeStatsToast, substitutionToasts]
    · refine ⟨[Event.setDisabled true, Event.setLabel "Processing real-time data...",
          Event.showLoading,
          Event.fetchRealtime (s.currentRound.getD "") (s.selectedSession.getD ""),
          Event.cacheBatch ((t0, v0) :: rest), Event.display v0],
        realtimeStatsToast stats :: Event.hideLoading :: Event.setDisabled false ::
          Event.setDisabled false :: [Event.setLabel ("Real-time Analyze " ++ sess)],
        ?_, ?_⟩
      · simp [performRealtimeAnalysis, hsess, hs2, hr, performRealtimeSuccess,
          getSelectedVisualizationType, hn2, displayVisualization, realtimeCleanup,
          updateAnalyzeButton]
      · simp

/-- Witness for C3: with the wordcloud radio checked and a batch listing
timeline first and wordcloud second, the wordcloud entry is displayed with
no substitution notice, and with the batch lacking wordcloud the timeline
entry is displayed with one substitution notice. -/
theorem realtime_display_and_substitution_witness :
    ((truthy ({ currentRound := some "1", selectedSession := some "Race", checkedVizRadio := some "wordcloud" } : AppState).selectedSession = true) ∧
     (truthy ({ currentRound := some "1", selectedSession := some "Race", checkedVizRadio := some "wordcloud" } : AppState).currentRound = true)) ∧
    (((performRealtimeAnalysis ({ currentRound := some "1", selectedSession := some "Race", checkedVizRadio := some "wordcloud" } : AppState)
        (FetchOutcome.ok
          { success := true, message := none, warning := none, error := none,
            visualizations := some [("timeline", Visualization.mk "timeline" "t"), ("wordcloud", Visualization.mk "wordcloud" "w")],
            stats := none })).1.lastRealtimeVisualizations =
        some [("timeline", Visualization.mk "timeline" "t"),
          ("wordcloud", Visualization.mk "wordcloud" "w")]) ∧
     (∀ v,
        List.lookup (getSelectedVisualizationType
            ({ currentRound := some "1", selectedSession := some "Race", checkedVizRadio := some "wordcloud" } : AppState))
          [("timeline", Visualization.mk "timeline" "t"),
            ("wordcloud", Visualization.mk "wordcloud" "w")] = some v →
        (performRealtimeAnalysis ({ currentRound := some "1", selectedSession := some "Race", checkedVizRadio := some "wordcloud" } : AppState)
          (FetchOutcome.ok
          { success := true, message := none, warning := none, error := none,
            visualizations := some [("timeline", Visualization.mk "timeline" "t"), ("wordcloud", Visualization.mk "wordcloud" "w")],
            stats := none })).1.displayed = some v ∧
        substitutionToasts (performRealtimeAnalysis
          ({ currentRound := some "1", selectedSession := some "Race", checkedVizRadio := some "wordcloud" } : AppState)
          (FetchOutcome.ok
          { success := true, message := none, warning := none, error := none,
            visualizations := some [("timeline", Visualization.mk "timeline" "t"), ("wordcloud", Visualization.mk "wordcloud" "w")],
            stats := none })).2 = 0) ∧
     (∀ t0 v0 rest,
        [("timeline", Visualization.mk "timeline" "t"),
          ("wordcloud", Visualization.mk "wordcloud" "w")] = (t0, v0) :: rest →
        List.lookup (getSelectedVisualizationType
            ({ currentRound := some "1", selectedSession := some "Race", checkedVizRadio := some "wordcloud" } : AppState))
          [("timeline", Visualization.mk "timeline" "t"),
            ("wordcloud", Visualization.mk "wordcloud" "w")] = none →
        (performRealtimeAnalysis ({ currentRound := some "1", selectedSession := some "Race", checkedVizRadio := some "wordcloud" } : AppState)
          (FetchOutcome.ok
          { success := true, message := none, warning := none, error := none,
            visualizations := some [("timeline", Visualization.mk "timeline" "t"), ("wordcloud", Visualization.mk "wordcloud" "w")],
            stats := none })).1.displayed = some v0 ∧
        substitutionToasts (performRealtimeAnalysis
          ({ currentRound := some "1", selectedSession := some "Race", checkedVizRadio := some "wordcloud" } : AppState)
          (FetchOutcome.ok
          { success := true, message := none, warning := none, error := none,
            visualizations := some [("timeline", Visualization.mk "timeline" "t"), ("wordcloud", Visualization.mk "wordcloud" "w")],
            stats := none })).2 = 1 ∧
        (∃ pre post,
          (performRealtimeAnalysis ({ currentRound := some "1", selectedSession := some "Race", checkedVizRadio := some "wordcloud" } : AppState)
            (FetchOutcome.ok
          { success := true, message := none, warning := none, error := none,
            visualizations := some [("timeline", Visualization.mk "timeline" "t"), ("wordcloud", Visualization.mk "wordcloud" "w")],
            stats := none })).2 =
            pre ++ Event.toast (Msg.substituted (getSelectedVisualizationType
                ({ currentRound := some "1", selectedSession := some "Race", checkedVizRadio := some "wordcloud" } : AppState)) t0)
                ToastKind.info :: post ∧
          Event.cacheBatch [("timeline", Visualization.mk "timeline" "t"),
            ("wordcloud", Visualization.mk "wordcloud" "w")] ∈ pre))) :=
  ⟨⟨by decide, by decide⟩,
    realtime_display_and_substitution
      ({ currentRound := some "1", selectedSession := some "Race", checkedVizRadio := some "wordcloud" } : AppState)
      [("timeline", Visualization.mk "timeline" "t"),
        ("wordcloud", Visualization.mk "wordcloud" "w")]
      none none none none (by decide) (by decide)⟩

/-! C7. Still-processing warning and the poller. -/

lemma pollCalls_cons (e : Event) (t : Trace) :
    pollCalls (e :: t) = pollCalls [e] + pollCalls t := by
  simp [pollCalls, List.countP_cons]
  omega

lemma pollLoop_countP_pollCall (round sessionId visType : String)
    (script : Nat → FetchOutcome VizApiResponse) (intervalMs : Nat) :
    ∀ fuel i,
      List.countP
        (fun e =>
          match e with
          | Event.pollCall _ _ _ _ _ => true
          | _ => false)
        (pollLoop round sessionId visType script intervalMs fuel i).trace = 0 := by
  intro fuel
  induction fuel with
  | zero => intro i; simp [pollLoop]
  | succ n ih =>
      intro i
      rcases hsc : script i with _ | ⟨st, txt⟩ | ⟨succ, viz, err⟩
      · simp only [pollLoop, hsc]
        simp [List.countP_cons, ih (i + 1)]
      · simp only [pollLoop, hsc]
        simp [List.countP_cons, ih (i + 1)]
      · cases succ <;> rcases viz with _ | ⟨_ | ⟨v, vs⟩⟩ <;>
          simp only [pollLoop, hsc] <;>
          simp [List.countP_cons, ih (i + 1)]

/-- C7 counterexample: in the part_002 orchestration, a success response
carrying a still-processing warning and no visualizations yields an error
notification and zero poller invocations, refuting the claim that the
orchestration notifies and then polls exactly once. -/
theorem realtime_warning_counterexample :
    (pollCalls (performRealtimeAnalysis
        ({ currentRound := some "1", selectedSession := some "Race" } : AppState)
        (FetchOutcome.ok
          { success := true, warning := some "still processing" })).2 = 0) ∧
    (errorToasts (performRealtimeAnalysis
        ({ currentRound := some "1", selectedSession := some "Race" } : AppState)
        (FetchOutcome.ok
          { success := true, warning := some "still processing" })).2 = 1) := by
  exact ⟨by decide, by decide⟩

/-- C7 amended: in the front end ts app.ts orchestration, a success
response with a warning and no visualization toasts the warning and then
invokes the poller exactly once, with the currently selected type and the
parameters 2000 and 15; the part_002 orchestration instead reports an
error and never polls. -/
theorem realtime_warning_polls_once_ts (s : AppState) (w : String)
    (msg err : Option String) (pollScript : Nat → FetchOutcome VizApiResponse)
    (hs : truthy s.selectedSession = true) (hr : truthy s.currentRound = true) :
    pollCalls (performRealtimeAnalysisTs s
      (FetchOutcome.ok
        { success := true, message := msg, warning := some w, error := err,
          visualization := none }) pollScript).2 = 1 ∧
    (∃ pre post,
      (performRealtimeAnalysisTs s
        (FetchOutcome.ok
          { success := true, message := msg, warning := some w, error := err,
            visualization := none }) pollScript).2 =
        pre ++ Event.toast (Msg.warningText w) ToastKind.info ::
          Event.pollCall (s.currentRound.getD "") (s.selectedSession.getD "")
            (getSelectedVisualizationType s) 2000 15 :: post ∧
      pollCalls pre = 0 ∧ pollCalls post = 0) := by
  obtain ⟨sess, hsess⟩ : ∃ x, s.selectedSession = some x := by
    cases h : s.selectedSession
    · rw [h] at hs; simp [truthy] at hs
    · exact ⟨_, rfl⟩
  have hs2 := hs
  rw [hsess] at hs2
  have htr : (performRealtimeAnalysisTs s
      (FetchOutcome.ok
        { success := true, message := msg, warning := some w, error := err,
          visualization := none }) pollScript).2 =
      [Event.setDisabled true, Event.setLabel "Processing real-time data...",
        Event.showLoading,
        Event.fetchRealtimeTs (s.currentRound.getD "") sess
          (getSelectedVisualizationType s)] ++
      Event.toast (Msg.warningText w) ToastKind.info ::
        Event.pollCall (s.currentRound.getD "") sess
          (getSelectedVisualizationType s) 2000 15 ::
        ((pollForVisualization (s.currentRound.getD "") sess
            (getSelectedVisualizationType s) pollScript 2000 15).trace ++
          (if (pollForVisualization (s.currentRound.getD "") sess
              (getSelectedVisualizationType s) pollScript 2000 15).found
            then ([] : Trace)
            else [Event.toast Msg.stillGenerating ToastKind.info]) ++
          [Event.hideLoading, Event.setDisabled false, Event.setDisabled false,
            Event.setLabel ("Real-time Analyze " ++ sess)]) := by
    cases hdv : (pollForVisualization (s.currentRound.getD "") sess
        (s.checkedVizRadio.getD "timeline") pollScript 2000 15).displayedViz <;>
      simp [performRealtimeAnalysisTs, hsess, hs2, hr, realtimeCleanup,
        updateAnalyzeButton, getSelectedVisualizationType, hdv]
  constructor
  · rw [htr]
    cases hfound : (pollForVisualization (s.currentRound.getD "") sess
        (getSelectedVisualizationType s) pollScript 2000 15).found <;>
      simp [hfound, pollCalls, List.countP_append, List.countP_cons,
        pollForVisualization, pollLoop_countP_pollCall]
  · refine ⟨[Event.setDisabled true, Event.setLabel "Processing real-time data...",
        Event.showLoading,
        Event.fetchRealtimeTs (s.currentRound.getD "") sess
          (getSelectedVisualizationType s)],
      ((pollForVisualization (s.currentRound.getD "") sess
          (getSelectedVisualizationType s) pollScript 2000 15).trace ++
        (if (pollForVisualization (s.currentRound.getD "") sess
            (getSelectedVisualizationType s) pollScript 2000 15).found
          then ([] : Trace)
          else [Event.toast Msg.stillGenerating ToastKind.info]) ++
        [Event.hideLoading, Event.setDisabled false, Event.setDisabled false,
          Event.setLabel ("Real-time Analyze " ++ sess)]), ?_, ?_, ?_⟩
    · rw [htr]
      simp [hsess]
    · simp [pollCalls]
    · cases hfound : (pollForVisualization (s.currentRound.getD "") sess
          (getSelectedVisualizationType s) pollScript 2000 15).found <;>
        simp [hfound, pollCalls, List.countP_append, List.countP_cons,
          pollForVisualization, pollLoop_countP_pollCall]

/-- Witness for C7 amended at a concrete state, warning text and an
always-failing poll script. -/
theorem realtime_warning_polls_once_ts_witness :
    ((truthy ({ currentRound := some "1", selectedSession := some "Race" } : AppState).selectedSession = true) ∧
     (truthy ({ currentRound := some "1", selectedSession := some "Race" } : AppState).currentRound = true)) ∧
    (pollCalls (performRealtimeAnalysisTs
        ({ currentRound := some "1", selectedSession := some "Race" } : AppState)
        (FetchOutcome.ok
          { success := true, message := none, warning := some "still processing",
            error := none, visualization := none })
        (fun _ => FetchOutcome.transportError)).2 = 1 ∧
     (∃ pre post,
        (performRealtimeAnalysisTs
          ({ currentRound := some "1", selectedSession := some "Race" } : AppState)
          (FetchOutcome.ok
            { success := true, message := none, warning := some "still processing",
              error := none, visualization := none })
          (fun _ => FetchOutcome.transportError)).2 =
          pre ++ Event.toast (Msg.warningText "still processing") ToastKind.info ::
            Event.pollCall
              (({ currentRound := some "1", selectedSession := some "Race" } : AppState).currentRound.getD "")
              (({ currentRound := some "1", selectedSession := some "Race" } : AppState).selectedSession.getD "")
              (getSelectedVisualizationType
                ({ currentRound := some "1", selectedSession := some "Race" } : AppState))
              2000 15 :: post ∧
        pollCalls pre = 0 ∧ pollCalls post = 0)) :=
  ⟨⟨by decide, by decide⟩,
    realtime_warning_polls_once_ts
      ({ currentRound := some "1", selectedSession := some "Race" } : AppState)
      "still processing" none none (fun _ => FetchOutcome.transportError)
      (by decide) (by decide)⟩

/-! C8. Empty-success visualizations handling. -/

/-- C8 counterexample: the precomputed path of analyzeSentiment converts an
empty-success visualizations response into a thrown Error shown as an
error-kind notification, refuting the claim that no error notification is
raised from such a call. -/
theorem empty_success_error_toast_counterexample :
    errorToasts (analyzeSentiment
      ({ currentRound := some "1", selectedSession := some "Race", isRealtimeMode := false } : AppState)
      FetchOutcome.transportError
      (FetchOutcome.ok { success := true, visualizations := some [] })).2 = 1 := by
  decide

/-- C8 amended: handleVizTypeChange treats an empty-success visualizations
response softly, showing a descriptive info notice and no error-kind
notification, while the precomputed path of analyzeSentiment converts the
same response into exactly one error-kind notification. -/
theorem empty_success_soft_handling (s : AppState)
    (rt : FetchOutcome RealtimeAnalysisResponse) (err : Option String)
    (hs : truthy s.selectedSession = true) (hr : truthy s.currentRound = true)
    (hmiss : s.lastRealtimeVisualizations.bind
        (fun b => List.lookup (getSelectedVisualizationType s) b) = none) :
    (errorToasts (handleVizTypeChange s
        (FetchOutcome.ok { success := true, visualizations := some [], error := err })).2 = 0) ∧
    ((handleVizTypeChange s
        (FetchOutcome.ok { success := true, visualizations := some [], error := err })).2 =
      [Event.fetchViz (s.currentRound.getD "") (s.selectedSession.getD "")
          (getSelectedVisualizationType s),
        Event.toast (Msg.noVizAvailableFor (getSelectedVisualizationType s)) ToastKind.info]) ∧
    (s.isRealtimeMode = false →
      errorToasts (analyzeSentiment s rt
        (FetchOutcome.ok { success := true, visualizations := some [], error := err })).2 = 1) := by
  obtain ⟨sess, hsess⟩ : ∃ x, s.selectedSession = some x := by
    cases h : s.selectedSession
    · rw [h] at hs; simp [truthy] at hs
    · exact ⟨_, rfl⟩
  have hs2 := hs
  rw [hsess] at hs2
  refine ⟨?_, ?_, ?_⟩
  · simp [handleVizTypeChange, handleVizTypeFetch, hmiss, hsess, hs2, hr, errorToasts]
  · simp [handleVizTypeChange, handleVizTypeFetch, hmiss, hsess, hs2, hr]
  · intro hm
    simp [analyzeSentiment, analyzeCleanup, updateAnalyzeButton, hsess, hs2, hm,
      errorToasts]

/-- Witness for C8 amended at a concrete state with an empty cache. -/
theorem empty_success_soft_handling_witness :
    ((truthy ({ currentRound := some "1", selectedSession := some "Race", isRealtimeMode := false } : AppState).selectedSession = true) ∧
     (truthy ({ currentRound := some "1", selectedSession := some "Race", isRealtimeMode := false } : AppState).currentRound = true) ∧
     (({ currentRound := some "1", selectedSession := some "Race", isRealtimeMode := false } : AppState).lastRealtimeVisualizations.bind
          (fun b => List.lookup (getSelectedVisualizationType
            ({ currentRound := some "1", selectedSession := some "Race", isRealtimeMode := false } : AppState)) b) = none)) ∧
    ((errorToasts (handleVizTypeChange
        ({ currentRound := some "1", selectedSession := some "Race", isRealtimeMode := false } : AppState)
        (FetchOutcome.ok { success := true, visualizations := some [], error := none })).2 = 0) ∧
     ((handleVizTypeChange
        ({ currentRound := some "1", selectedSession := some "Race", isRealtimeMode := false } : AppState)
        (FetchOutcome.ok { success := true, visualizations := some [], error := none })).2 =
       [Event.fetchViz
          (({ currentRound := some "1", selectedSession := some "Race", isRealtimeMode := false } : AppState).currentRound.getD "")
          (({ currentRound := some "1", selectedSession := some "Race", isRealtimeMode := false } : AppState).selectedSession.getD "")
          (getSelectedVisualizationType
            ({ currentRound := some "1", selectedSession := some "Race", isRealtimeMode := false } : AppState)),
        Event.toast (Msg.noVizAvailableFor (getSelectedVisualizationType
            ({ currentRound := some "1", selectedSession := some "Race", isRealtimeMode := false } : AppState))) ToastKind.info]) ∧
     (({ currentRound := some "1", selectedSession := some "Race", isRealtimeMode := false } : AppState).isRealtimeMode = false →
       errorToasts (analyzeSentiment
        ({ currentRound := some "1", selectedSession := some "Race", isRealtimeMode := false } : AppState)
        FetchOutcome.transportError
        (FetchOutcome.ok { success := true, visualizations := some [], error := none })).2 = 1)) :=
  ⟨⟨by decide, by decide, by decide⟩,
    empty_success_soft_handling
      ({ currentRound := some "1", selectedSession := some "Race", isRealtimeMode := false } : AppState)
      FetchOutcome.transportError none (by decide) (by decide) (by decide)⟩

end F1Sentiment
